import Mathlib

/-!
Verification of the `bevy_gif_capturer` crate (`src/lib.rs`).

Shallow embedding of the crate's pure logic and of the per-tick effects of
its systems.  Machine integers (`u32`, `usize`, `u16`) stay well inside
their ranges for every quantity the theorems touch, so they are modelled as
`Nat`; `speed: i32` is modelled as `Int`; `duration: f32` only ever carries
small exact literals (5.0, 1.0) and is modelled as `Rat`.  The filesystem
seen by `Path::exists` is modelled as the list of existing paths.  Behavior
of dependencies is modelled from their documented semantics where the crate
relies on it: bevy's `RenderDevice::align_copy_bytes_per_row` (rounding up
to wgpu's `COPY_BYTES_PER_ROW_ALIGNMENT = 256`) and bevy's `Timer::reset`
(which clears the just-finished flag).
-/

namespace GifCapture

/-- Looping behavior of the written file, mirroring `gif::Repeat`
(`Finite(u16)` or `Infinite`). -/
inductive Repeat where
  | finite (n : Nat)
  | infinite
deriving DecidableEq

/-- Settings struct `GifCaptureSettings` (src/lib.rs:19).  The `repeat`
field is named `rep` here because `repeat` is reserved in Lean. -/
structure GifCaptureSettings where
  duration : Rat
  path : String
  rep : Repeat
  speed : Int
deriving DecidableEq

/-- Error struct `GifCaptureSettingsError` (src/lib.rs:39): carries a
human-readable reason. -/
structure GifCaptureSettingsError where
  reason : String
deriving DecidableEq

/-- Default instance of the settings (src/lib.rs:27): duration 5.0,
empty path, infinite repeat, speed 10, built without any validation. -/
def GifCaptureSettings.default : GifCaptureSettings :=
  { duration := 5, path := "", rep := Repeat.infinite, speed := 10 }

/-- Existence test `Path::exists` over the filesystem modelled as the list
`fs` of existing paths. -/
def pathExistsB (fs : List String) (p : String) : Bool := fs.contains p

/-- Constructor `GifCaptureSettings::new` (src/lib.rs:45): first rejects a
`path` that does not exist on the filesystem, then a `speed` outside
`[1, 30]`; otherwise returns the settings. -/
def GifCaptureSettings.new (fs : List String) (duration : Rat) (path : String)
    (rep : Repeat) (speed : Int) :
    Except GifCaptureSettingsError GifCaptureSettings :=
  if !pathExistsB fs path then
    Except.error { reason := "Path: " ++ path ++ " does not exist." }
  else if speed < 1 ∨ speed > 30 then
    Except.error { reason := "Speed: " ++ toString speed ++
      " must be within range of 1 to 30" }
  else
    Except.ok { duration := duration, path := path, rep := rep, speed := speed }

/-- Parent directory of a path: everything before the last slash.  This is
the notion the spec uses ("existing parent directory"); the source instead
tests the path itself. -/
def parentDir (p : String) : String :=
  String.mk (((p.toList.reverse.dropWhile (fun c => c ≠ '/')).drop 1).reverse)

/-- Alignment constant `wgpu::COPY_BYTES_PER_ROW_ALIGNMENT`, the device row
alignment used by bevy for texture-to-buffer copies. -/
def COPY_BYTES_PER_ROW_ALIGNMENT : Nat := 256

/-- Row padding helper `RenderDevice::align_copy_bytes_per_row` from bevy:
rounds `row_bytes` up to the next multiple of the copy row alignment. -/
def align_copy_bytes_per_row (row_bytes : Nat) : Nat :=
  row_bytes +
    (COPY_BYTES_PER_ROW_ALIGNMENT - row_bytes % COPY_BYTES_PER_ROW_ALIGNMENT) %
      COPY_BYTES_PER_ROW_ALIGNMENT

/-- Pixel dimensions of the primary window (`window.width()` and
`window.height()` cast to `u32`). -/
structure Window where
  width : Nat
  height : Nat
deriving DecidableEq

/-- Size computation `get_buffer_size` (src/lib.rs:218).  Output order, per
its own doc comment: `(unpadded_bytes_per_row, padded_bytes_per_row,
total_buffer_size)`, with `pixel_size = 4` (RGBA8) and `total_buffer_size =
padded_bytes_per_row * height`. -/
def get_buffer_size (window : Window) : Nat × Nat × Nat :=
  let pixel_size := 4
  let unpadded_bytes_per_row := pixel_size * window.width
  let padded_bytes_per_row := align_copy_bytes_per_row unpadded_bytes_per_row
  let buffer_size := padded_bytes_per_row * window.height
  (unpadded_bytes_per_row, padded_bytes_per_row, buffer_size)

/-- Fields of the `BufferDescriptor` that `create_buffer` fills in
(usage flags COPY_DST | MAP_READ are constant and omitted). -/
structure BufferDescriptor where
  size : Nat
  label : String
  mapped_at_creation : Bool
deriving DecidableEq

/-- System `create_buffer` (src/lib.rs:228).  The source destructures
`let (buffer_size, _, _) = get_buffer_size(primary_window)`, binding the
FIRST tuple component — `unpadded_bytes_per_row` — as the descriptor size. -/
def create_buffer (window : Window) : BufferDescriptor :=
  { size := (get_buffer_size window).1
    label := "Gif Output Buffer"
    mapped_at_creation := false }

/-- Capture state enum `GifCaptureState` (src/lib.rs:102); `Off` is the
`Default` (src/lib.rs:108). -/
inductive GifCaptureState where
  | off
  | currentlyCapturing
  | justFinishedCapturing
deriving DecidableEq

/-- Extract-stage system `extract_gif_capture` (src/lib.rs:78) as a function
of this tick's inputs: whether a `GifCaptureStartEvent` is pending and
whether the ticked timer reports `just_finished`.  On a pending event the
source inserts `CurrentlyCapturing` and resets the timer; bevy's
`Timer::reset` clears the just-finished flag, so the following
`just_finished()` check is false on such a tick.  With no event, the
`just_finished()` check alone decides whether `JustFinishedCapturing` is
inserted — the prior state is not consulted. -/
def extract_gif_capture (eventNonempty justFinished : Bool)
    (state : GifCaptureState) : GifCaptureState :=
  if eventNonempty then GifCaptureState.currentlyCapturing
  else if justFinished then GifCaptureState.justFinishedCapturing
  else state

/-- Outcome of one run of the render-graph node `DispatchGifCapture`
(src/lib.rs:119): `Ok` with a flag saying whether the texture-to-buffer
copy was recorded, or a panic from a failed `unwrap`. -/
inductive RunResult where
  | ok (copyIssued : Bool)
  | panic
deriving DecidableEq

/-- Node body `DispatchGifCapture::run` (src/lib.rs:119).  Inputs:
the `GifCaptureState` resource (if present), whether `window_surfaces`
holds a surface for the primary window, whether that surface's
`get_current_texture()` succeeds, and whether the `GifBuffer` resource is
present.  When capturing with surface and buffer present, the source calls
`surface.get_current_texture().unwrap()`, which panics if no current
texture is available; with surface or buffer absent it records nothing and
returns `Ok`. -/
def dispatch_run (state : Option GifCaptureState) (surfaceRegistered : Bool)
    (currentTextureAvailable : Bool) (bufferPresent : Bool) : RunResult :=
  match state with
  | some GifCaptureState.currentlyCapturing =>
      if surfaceRegistered && bufferPresent then
        if currentTextureAvailable then RunResult.ok true else RunResult.panic
      else RunResult.ok false
  | _ => RunResult.ok false

/-- Fuel-driven worker for `listChunks`; one unit of fuel per produced
chunk.  Structural recursion keeps it kernel-computable. -/
def listChunksFuel {α : Type} (n : Nat) : Nat → List α → List (List α)
  | _, [] => []
  | 0, _ :: _ => []
  | fuel + 1, a :: l => (a :: l).take n :: listChunksFuel n fuel ((a :: l).drop n)

/-- Slice iterator `padded_data.chunks(n)` from Rust: consecutive chunks of
`n` elements, the last possibly shorter.  Because every step with `n ≥ 1`
consumes at least one element, `l.length` units of fuel always suffice.
(Rust panics on `chunks(0)`; that case never arises here since the chunk
size is a padded row width, at least 256.) -/
def listChunks {α : Type} (n : Nat) (l : List α) : List (List α) :=
  if n = 0 then [] else listChunksFuel n l.length l

/-- Frame extraction inside `write_gif` (src/lib.rs:252): chunk the mapped
bytes by `padded_bytes_per_row`, keep the first `unpadded_bytes_per_row`
bytes of each chunk (`&chunk[..n]`, which demands every chunk be at least
`n` long and agrees with `take` whenever that holds), and flatten in row
order. -/
def de_pad (padded unpadded : Nat) (data : List Nat) : List Nat :=
  ((listChunks padded data).map (fun chunk => chunk.take unpadded)).flatten

/-- Effect of the system `write_gif` (src/lib.rs:242) on the
`GifCaptureFrames` resource: it maps the readback buffer, de-pads its
bytes, and pushes the result.  It is registered on the GET_GIF_DATA stage
with no run criterion, so it does this on every render tick — the capture
state is not consulted. -/
def write_gif (window : Window) (mappedBytes : List Nat)
    (frames : List (List Nat)) : List (List Nat) :=
  let sizes := get_buffer_size window
  frames ++ [de_pad sizes.2.1 sizes.1 mappedBytes]

/-- Operations `write_gif` performs on the readback buffer, in source
order. -/
inductive BufferOp where
  | mapForRead
  | getMappedRange
  | copyOut
  | dropMappedRange
  | unmap
deriving DecidableEq

/-- Trace of buffer operations in one `write_gif` run (src/lib.rs:250-261):
`map_buffer`, `get_mapped_range`, copying the bytes out, then
`drop(padded_data)`.  The `output_buffer.unmap()` call on the next source
line is commented out, so no unmap operation occurs. -/
def write_gif_buffer_ops : List BufferOp :=
  [BufferOp.mapForRead, BufferOp.getMappedRange, BufferOp.copyOut,
   BufferOp.dropMappedRange]

/-- Observable output of `save_gif` (src/lib.rs:290): the file path it
creates, the encoder dimensions, the repeat mode passed to `set_repeat`,
the speed passed to `Frame::from_rgba_speed`, and the frames written in
order (each from a private clone, so the stored frames are unmodified). -/
structure GifFile where
  path : String
  width : Nat
  height : Nat
  rep : Repeat
  speed : Int
  frames : List (List Nat)
deriving DecidableEq

/-- Encoder entry point `save_gif` (src/lib.rs:290): creates the file at
`settings.path`, then calls `encoder.set_repeat(Repeat::Infinite)` — the
literal `Infinite`, not `settings.repeat` — then writes every frame with
`Frame::from_rgba_speed(width, height, clone, settings.speed)`. -/
def save_gif (settings : GifCaptureSettings) (frames : List (List Nat))
    (width height : Nat) : GifFile :=
  { path := settings.path
    width := width
    height := height
    rep := Repeat.infinite
    speed := settings.speed
    frames := frames }

/-- Render-world state the GET_GIF_DATA stage acts on: the
`GifCaptureState` resource and the `GifCaptureFrames` resource. -/
structure RenderWorld where
  state : GifCaptureState
  frames : List (List Nat)
deriving DecidableEq

/-- System `save_gif_on_state` (src/lib.rs:265): on `JustFinishedCapturing`
it encodes the frames via `save_gif` and inserts `Off`; on the other states
it does nothing.  The frames resource is taken as immutable `Res`, so it is
never cleared. -/
def save_gif_on_state (settings : GifCaptureSettings) (window : Window)
    (w : RenderWorld) : RenderWorld × Option GifFile :=
  match w.state with
  | GifCaptureState.off => (w, none)
  | GifCaptureState.currentlyCapturing => (w, none)
  | GifCaptureState.justFinishedCapturing =>
      ({ w with state := GifCaptureState.off },
       some (save_gif settings w.frames window.width window.height))

/-- One render tick as wired by `GifCapturePlugin::build` (src/lib.rs:177):
the Extract stage runs `extract_gif_capture` (resource inserts apply at the
end of the stage), then the single-threaded GET_GIF_DATA stage runs
`write_gif` followed by `save_gif_on_state` in registration order.
`mappedBytes` is whatever the readback buffer holds when mapped this tick. -/
def render_tick (settings : GifCaptureSettings) (window : Window)
    (eventNonempty justFinished : Bool) (mappedBytes : List Nat)
    (w : RenderWorld) : RenderWorld × Option GifFile :=
  let st := extract_gif_capture eventNonempty justFinished w.state
  let fr := write_gif window mappedBytes w.frames
  save_gif_on_state settings window { state := st, frames := fr }

/-- Synthetic padded row for the round-trip property: the row extended to
`padded` bytes with zero padding, as the GPU copy lays rows out in the
readback buffer. -/
def padRow (padded : Nat) (row : List Nat) : List Nat :=
  row ++ List.replicate (padded - row.length) 0

/-- Synthetic padded buffer built from a tightly-packed frame given as its
list of rows: each row padded to `padded` bytes, rows concatenated. -/
def buildPadded (padded : Nat) (rows : List (List Nat)) : List Nat :=
  (rows.map (padRow padded)).flatten

theorem length_padRow (padded : Nat) (row : List Nat)
    (h : row.length ≤ padded) : (padRow padded row).length = padded := by
  simp [padRow]
  omega

theorem le_align_copy_bytes_per_row (n : Nat) :
    n ≤ align_copy_bytes_per_row n :=
  Nat.le_add_right n _

theorem listChunksFuel_cons_eq {α : Type} (n fuel : Nat) (l : List α)
    (hl : l ≠ []) :
    listChunksFuel n (fuel + 1) l = l.take n :: listChunksFuel n fuel (l.drop n) := by
  cases l with
  | nil => exact absurd rfl hl
  | cons a t => rfl

theorem listChunksFuel_nil {α : Type} (n fuel : Nat) :
    listChunksFuel n fuel ([] : List α) = [] := by
  cases fuel <;> rfl

theorem take_padRow (padded unpadded : Nat) (row : List Nat)
    (h : row.length = unpadded) : (padRow padded row).take unpadded = row :=
  List.take_left' h

theorem listChunksFuel_depad (padded unpadded : Nat) (h1 : unpadded ≤ padded)
    (h2 : 0 < padded) (rows : List (List Nat)) :
    ∀ fuel : Nat, (∀ r ∈ rows, r.length = unpadded) →
      (buildPadded padded rows).length ≤ fuel →
      ((listChunksFuel padded fuel (buildPadded padded rows)).map
          (fun chunk => chunk.take unpadded)).flatten = rows.flatten := by
  induction rows with
  | nil =>
      intro fuel _ _
      simp [buildPadded, listChunksFuel_nil]
  | cons r rest ih =>
      intro fuel hrow hf
      have hr : r.length = unpadded := hrow r (List.mem_cons_self r rest)
      have hrle : r.length ≤ padded := by omega
      have hpadlen : (padRow padded r).length = padded := length_padRow padded r hrle
      have hsplit : buildPadded padded (r :: rest)
          = padRow padded r ++ buildPadded padded rest := by
        simp [buildPadded]
      have hlen : (buildPadded padded (r :: rest)).length
          = padded + (buildPadded padded rest).length := by
        rw [hsplit, List.length_append, hpadlen]
      cases fuel with
      | zero =>
          rw [hlen] at hf
          omega
      | succ f =>
          have hne : padRow padded r ++ buildPadded padded rest ≠ [] := by
            intro hcontra
            have hc := congrArg List.length hcontra
            rw [List.length_append, hpadlen] at hc
            simp at hc
            omega
          rw [hsplit, listChunksFuel_cons_eq padded f _ hne,
            List.take_left' hpadlen, List.drop_left' hpadlen]
          simp only [List.map_cons, List.flatten_cons, List.flatten_cons,
            take_padRow padded unpadded r hr]
          have hf' : (buildPadded padded rest).length ≤ f := by
            rw [hlen] at hf
            omega
          rw [ih f (fun x hx => hrow x (List.mem_cons_of_mem r hx)) hf']

theorem de_pad_buildPadded (padded unpadded : Nat) (h1 : unpadded ≤ padded)
    (h2 : 0 < padded) (rows : List (List Nat))
    (hrow : ∀ r ∈ rows, r.length = unpadded) :
    de_pad padded unpadded (buildPadded padded rows) = rows.flatten := by
  unfold de_pad listChunks
  rw [if_neg (by omega : ¬ padded = 0)]
  exact listChunksFuel_depad padded unpadded h1 h2 rows _ hrow le_rfl

/-- C1: the claim says the destination buffer is allocated with
`paddedBytesPerRow * height` bytes.  The source binds the first component
of `get_buffer_size` — the unpadded row width — as the size, contradicting
that function's own documented output order.  At a 5 × 4 window the
descriptor size is 20 = 4 * 5 bytes, while `paddedBytesPerRow * height`
is 256 * 4 = 1024. -/
theorem c1_create_buffer_allocates_unpadded_row :
    (create_buffer ⟨5, 4⟩).size = 20 ∧
      (get_buffer_size ⟨5, 4⟩).2.1 = 256 ∧
      (get_buffer_size ⟨5, 4⟩).2.2 = 1024 ∧
      (create_buffer ⟨5, 4⟩).size ≠ (get_buffer_size ⟨5, 4⟩).2.1 * 4 := by
  decide

/-- C2: the claim says a frame is appended only when the state is
Capturing.  On a tick with state `Off`, no start event and an idle timer,
the unconditional `write_gif` system still appends a frame: from an empty
FrameBuffer the tick ends with one stored frame and the state still `Off`. -/
theorem c2_frame_appended_while_off :
    (render_tick GifCaptureSettings.default ⟨1, 1⟩ false false [0, 0, 0, 0]
        ⟨GifCaptureState.off, []⟩).1
      = ⟨GifCaptureState.off, [[0, 0, 0, 0]]⟩ := by
  decide

/-- C3: the claim says that after a successful encode the state is `Off`
and the FrameBuffer is cleared.  With state `JustFinishedCapturing` and one
stored frame, `save_gif_on_state` encodes and resets the state to `Off`,
but the frames resource is immutable in that system and keeps length 1. -/
theorem c3_frames_not_cleared :
    (save_gif_on_state GifCaptureSettings.default ⟨1, 1⟩
          ⟨GifCaptureState.justFinishedCapturing, [[0, 0, 0, 0]]⟩).1
        = ⟨GifCaptureState.off, [[0, 0, 0, 0]]⟩ ∧
      (save_gif_on_state GifCaptureSettings.default ⟨1, 1⟩
          ⟨GifCaptureState.justFinishedCapturing, [[0, 0, 0, 0]]⟩).1.frames.length
        ≠ 0 := by
  decide

/-- C4 counterexample: on a tick with no capture-start signal, a
just-finished timer and prior state `Off` — not `Capturing` — the source
still sets the state to `JustFinishedCapturing`, so the claim's "exactly
when ... the prior state was Capturing" is false. -/
theorem c4_counterexample :
    extract_gif_capture false true GifCaptureState.off
        = GifCaptureState.justFinishedCapturing ∧
      GifCaptureState.off ≠ GifCaptureState.currentlyCapturing := by
  decide

/-- C4 (amended): on a tick with no capture-start signal the state after
`extract_gif_capture` is `JustFinishedCapturing` exactly when the timer
reports just-finished this tick or the state already was
`JustFinishedCapturing` — the prior state is not required to be
`Capturing`; and the tick yields at most one transition: the state either
moves to `JustFinishedCapturing` or is left unchanged. -/
theorem c4_just_finished_regardless_of_prior_state
    (justFinished : Bool) (st : GifCaptureState) :
    (extract_gif_capture false justFinished st
          = GifCaptureState.justFinishedCapturing
        ↔ (justFinished = true ∨ st = GifCaptureState.justFinishedCapturing)) ∧
      (extract_gif_capture false justFinished st
          = GifCaptureState.justFinishedCapturing
        ∨ extract_gif_capture false justFinished st = st) := by
  cases justFinished <;> cases st <;> decide

theorem c4_just_finished_regardless_of_prior_state_witness :
    (extract_gif_capture false true GifCaptureState.off
          = GifCaptureState.justFinishedCapturing
        ↔ (true = true ∨ GifCaptureState.off = GifCaptureState.justFinishedCapturing)) ∧
      (extract_gif_capture false true GifCaptureState.off
          = GifCaptureState.justFinishedCapturing
        ∨ extract_gif_capture false true GifCaptureState.off = GifCaptureState.off) :=
  c4_just_finished_regardless_of_prior_state true GifCaptureState.off

/-- C5: the claim says the written loop behavior follows
`CaptureSettings.repeatMode`.  The source calls
`encoder.set_repeat(Repeat::Infinite)` with the literal `Infinite`: every
output is infinite-looped, and with settings carrying `Finite 2` the
written repeat is not `Finite 2`. -/
theorem c5_repeat_hardcoded_infinite :
    (∀ (s : GifCaptureSettings) (frames : List (List Nat)) (w h : Nat),
        (save_gif s frames w h).rep = Repeat.infinite) ∧
      (save_gif { duration := 5, path := "/tmp/a.gif",
                  rep := Repeat.finite 2, speed := 10 } [] 4 4).rep
        ≠ Repeat.finite 2 :=
  ⟨fun _ _ _ _ => rfl, by decide⟩

/-- C6 counterexample: on a capture tick where the primary window's surface
is registered but `get_current_texture()` fails (no current texture), the
node hits `.unwrap()` and panics — the claim's "no error or panic is
raised" is false. -/
theorem c6_counterexample :
    dispatch_run (some GifCaptureState.currentlyCapturing) true false true
      = RunResult.panic := by
  decide

/-- C6 (amended): a capture tick is skipped silently — no copy recorded, no
panic, state untouched (the node never writes state) — when the primary
window's surface is NOT registered in `WindowSurfaces`, or when the
readback buffer resource is absent; but when the surface is registered and
merely has no current texture, the node panics instead of skipping. -/
theorem c6_silent_skip_only_without_surface
    (st : Option GifCaptureState) (tex buf : Bool) :
    (dispatch_run st false tex buf = RunResult.ok false) ∧
      (dispatch_run (some GifCaptureState.currentlyCapturing) true tex false
        = RunResult.ok false) ∧
      (dispatch_run (some GifCaptureState.currentlyCapturing) true false true
        = RunResult.panic) := by
  refine ⟨?_, ?_, by decide⟩
  · cases st with
    | none => rfl
    | some s => cases s <;> cases tex <;> cases buf <;> decide
  · cases tex <;> decide

theorem c6_silent_skip_only_without_surface_witness :
    (dispatch_run (some GifCaptureState.currentlyCapturing) false true true
        = RunResult.ok false) ∧
      (dispatch_run (some GifCaptureState.currentlyCapturing) true true false
        = RunResult.ok false) ∧
      (dispatch_run (some GifCaptureState.currentlyCapturing) true false true
        = RunResult.panic) :=
  c6_silent_skip_only_without_surface (some GifCaptureState.currentlyCapturing)
    true true

/-- C7: the claim says the readback buffer is unmapped immediately after
its bytes are copied out.  In the source the `output_buffer.unmap()` call
is commented out: the trace of buffer operations performed by `write_gif`
ends with dropping the mapped view and contains no unmap at all (so, while
nothing is read after an unmap, the unmap itself never happens). -/
theorem c7_unmap_never_called :
    write_gif_buffer_ops.contains BufferOp.unmap = false ∧
      write_gif_buffer_ops.getLast? = some BufferOp.dropMappedRange := by
  decide

/-- C8 counterexample: with a filesystem in which only the directory "/tmp"
exists, the path "/tmp/out.gif" has an existing parent directory and speed
10 lies in [1, 30], yet `GifCaptureSettings::new` errors — the source tests
existence of the path itself, not of its parent directory. -/
theorem c8_counterexample :
    pathExistsB ["/tmp"] (parentDir "/tmp/out.gif") = true ∧
      (1 : Int) ≤ 10 ∧ (10 : Int) ≤ 30 ∧
      GifCaptureSettings.new ["/tmp"] 5 "/tmp/out.gif" Repeat.infinite 10
        = Except.error { reason := "Path: /tmp/out.gif does not exist." } := by
  refine ⟨by decide, by decide, by decide, ?_⟩
  rfl

/-- C8 (amended): `GifCaptureSettings::new` returns Ok exactly when the
path ITSELF exists on the filesystem and the speed is in [1, 30]; and for
any existing path, speed 50 is rejected with an error carrying a reason
string — in particular `new(1.0, validPath, Infinite, 50)` fails. -/
theorem c8_new_ok_iff_path_itself_exists (fs : List String) (d : Rat)
    (p : String) (r : Repeat) (s : Int) :
    ((∃ st, GifCaptureSettings.new fs d p r s = Except.ok st)
        ↔ (pathExistsB fs p = true ∧ 1 ≤ s ∧ s ≤ 30)) ∧
      (pathExistsB fs p = true →
        ∃ e, GifCaptureSettings.new fs 1 p Repeat.infinite 50
          = Except.error e) := by
  constructor
  · constructor
    · rintro ⟨st, hst⟩
      by_cases hp : pathExistsB fs p = true
      · by_cases hs : s < 1 ∨ s > 30
        · simp [GifCaptureSettings.new, hp, hs] at hst
        · exact ⟨hp, by omega, by omega⟩
      · simp [GifCaptureSettings.new, hp] at hst
    · rintro ⟨hp, hs1, hs2⟩
      have hns : ¬(s < 1 ∨ s > 30) := by omega
      exact ⟨{ duration := d, path := p, rep := r, speed := s },
        by simp [GifCaptureSettings.new, hp, hns]⟩
  · intro hp
    have hs : (50 : Int) < 1 ∨ (50 : Int) > 30 := by omega
    refine ⟨{ reason := "Speed: " ++ toString (50 : Int) ++
              " must be within range of 1 to 30" }, ?_⟩
    simp [GifCaptureSettings.new, hp, hs]

theorem c8_new_ok_iff_path_itself_exists_witness :
    ((∃ st, GifCaptureSettings.new ["/tmp"] 5 "/tmp" Repeat.infinite 10
          = Except.ok st)
        ↔ (pathExistsB ["/tmp"] "/tmp" = true ∧ (1 : Int) ≤ 10 ∧ (10 : Int) ≤ 30)) ∧
      (pathExistsB ["/tmp"] "/tmp" = true →
        ∃ e, GifCaptureSettings.new ["/tmp"] 1 "/tmp" Repeat.infinite 50
          = Except.error e) :=
  c8_new_ok_iff_path_itself_exists ["/tmp"] 5 "/tmp" Repeat.infinite 10

/-- C9: building the padded buffer from a tightly-packed frame of width W
(rows of 4 * W bytes, each padded to `paddedBytesPerRow` as computed by
`get_buffer_size`) and then applying the de-padding step of `write_gif`
reproduces the original frame byte-for-byte. -/
theorem c9_depad_round_trip (W H : Nat) (hW : 0 < W) (rows : List (List Nat))
    (_hH : rows.length = H) (hrow : ∀ r ∈ rows, r.length = 4 * W) :
    de_pad (get_buffer_size ⟨W, H⟩).2.1 (4 * W)
        (buildPadded (get_buffer_size ⟨W, H⟩).2.1 rows) = rows.flatten := by
  have hpad : (get_buffer_size ⟨W, H⟩).2.1 = align_copy_bytes_per_row (4 * W) := rfl
  rw [hpad]
  exact de_pad_buildPadded (align_copy_bytes_per_row (4 * W)) (4 * W)
    (le_align_copy_bytes_per_row (4 * W))
    (Nat.lt_of_lt_of_le (by omega) (le_align_copy_bytes_per_row (4 * W)))
    rows hrow

theorem c9_depad_round_trip_witness :
    de_pad (get_buffer_size ⟨1, 2⟩).2.1 (4 * 1)
        (buildPadded (get_buffer_size ⟨1, 2⟩).2.1
          [[1, 2, 3, 4], [5, 6, 7, 8]])
      = [1, 2, 3, 4, 5, 6, 7, 8] := by
  have h := c9_depad_round_trip 1 2 (by decide) [[1, 2, 3, 4], [5, 6, 7, 8]]
    rfl (by decide)
  simpa using h

/-- C10: the default settings value installed by `init_resource` is
duration 5.0, empty path, infinite repeat, speed 10, built with no
validation; and `GifCaptureSettings::new` applied to those same field
values errors, because the empty path never exists on a filesystem that
does not list "". -/
theorem c10_default_bypasses_validation (fs : List String)
    (h : pathExistsB fs "" = false) :
    GifCaptureSettings.default.duration = 5 ∧
      GifCaptureSettings.default.path = "" ∧
      GifCaptureSettings.default.rep = Repeat.infinite ∧
      GifCaptureSettings.default.speed = 10 ∧
      ∃ e, GifCaptureSettings.new fs GifCaptureSettings.default.duration
          GifCaptureSettings.default.path GifCaptureSettings.default.rep
          GifCaptureSettings.default.speed = Except.error e := by
  refine ⟨rfl, rfl, rfl, rfl,
    ⟨{ reason := "Path: " ++ "" ++ " does not exist." }, ?_⟩⟩
  show GifCaptureSettings.new fs 5 "" Repeat.infinite 10 = _
  unfold GifCaptureSettings.new
  rw [if_pos (by rw [h]; rfl)]

theorem c10_default_bypasses_validation_witness :
    GifCaptureSettings.default.duration = 5 ∧
      GifCaptureSettings.default.path = "" ∧
      GifCaptureSettings.default.rep = Repeat.infinite ∧
      GifCaptureSettings.default.speed = 10 ∧
      ∃ e, GifCaptureSettings.new [] GifCaptureSettings.default.duration
          GifCaptureSettings.default.path GifCaptureSettings.default.rep
          GifCaptureSettings.default.speed = Except.error e :=
  c10_default_bypasses_validation [] rfl

end GifCapture
